import Mathlib

/-!
Verification model of the bmixer transaction lifecycle.

The definitions below are a shallow embedding of the Python sources:
models.py (TransactionStatus, MixingTransaction), mixing_service.py
(create_mixing_transaction, check_incoming_payment, perform_mixing_round,
send_output_transaction, together with the log writes done by _log_action),
tasks.py (the query filters of send_scheduled_outputs and
cleanup_old_transactions), and mixer_service.py (the MixerForm validators
and the mixer route).

Modelling conventions: Python Decimal and float amounts become Rat
(exact for the 2-digit fee rate times 8-decimal amounts handled here,
since Decimal default precision of 28 significant digits never rounds
such products); datetimes become Int seconds; the wallet RPC backend is
an oracle passed in as an argument of type Except String _, the error
constructor standing for a raised exception; a database row is the
MixingTransaction value and the audit table is a List LogEntry, commits
being the returned values.
-/

inductive TransactionStatus where
  | PENDING
  | MIXING
  | COMPLETED
  | FAILED
  | CANCELLED
deriving DecidableEq

/-- Row of the mixing_transactions table (models.py, MixingTransaction). -/
structure MixingTransaction where
  session_id : String
  input_amount : Rat
  fee_amount : Rat
  output_amount : Rat
  input_address : String
  output_address : String
  mixing_address : Option String
  status : TransactionStatus
  mixing_rounds_completed : Nat
  input_txid : Option String
  output_txid : Option String
  created_at : Int
  mixing_started_at : Option Int
  completed_at : Option Int
  scheduled_output_time : Option Int
  ip_hash : String
  user_agent_hash : String
  error_message : Option String
  retry_count : Nat
deriving DecidableEq

/-- One row of the mixing_logs audit table. Each constructor is one of the
action labels written by _log_action, with the structured detail payload
the source puts in the details dict. -/
inductive LogEntry where
  | created (input_amount : Rat) (output_address : String) (delay_minutes : Int)
  | payment_received (amount : Rat) (txid : Option String)
  | mixing_round (n : Nat) (from_address : String) (to_address : String) (amount : Rat)
  | output_scheduled (scheduled_time : Option Int) (output_address : String)
  | output_sent (txid : String) (amount : Rat) (address : String)
deriving DecidableEq

/-- Mixer settings of config.py consumed by the engine. -/
structure Config where
  MIN_AMOUNT : Rat
  MAX_AMOUNT : Rat
  FEE_PERCENT : Rat
  MIXING_ROUNDS : Nat
  DELAY_MINUTES_MIN : Int
  DELAY_MINUTES_MAX : Int

/-- Default values of config.py. -/
def defaultConfig : Config :=
  { MIN_AMOUNT := 1 / 1000
    MAX_AMOUNT := 100
    FEE_PERCENT := 3 / 100
    MIXING_ROUNDS := 3
    DELAY_MINUTES_MIN := 10
    DELAY_MINUTES_MAX := 60 }

/-- Result of one engine operation: the committed row, the audit table,
and the boolean the Python function returns. -/
structure OpResult where
  tx : MixingTransaction
  logs : List LogEntry
  ok : Bool
deriving DecidableEq

/-- create_mixing_transaction (mixing_service.py lines 65-109).
The wallet call getnewaddress is the input_address argument, and the
random.randint delay draw is the delay_minutes argument; the caller is
responsible for drawing it in the configured range. -/
def create_mixing_transaction (cfg : Config) (input_amount : Rat)
    (output_address session_id ip_hash user_agent_hash input_address : String)
    (delay_minutes now : Int) : MixingTransaction × List LogEntry :=
  let fee_amount := input_amount * cfg.FEE_PERCENT
  let output_amount := input_amount - fee_amount
  let scheduled_output_time := now + delay_minutes * 60
  let t : MixingTransaction :=
    { session_id := session_id
      input_amount := input_amount
      fee_amount := fee_amount
      output_amount := output_amount
      input_address := input_address
      output_address := output_address
      mixing_address := none
      status := TransactionStatus.PENDING
      mixing_rounds_completed := 0
      input_txid := none
      output_txid := none
      created_at := now
      mixing_started_at := none
      completed_at := none
      scheduled_output_time := some scheduled_output_time
      ip_hash := ip_hash
      user_agent_hash := user_agent_hash
      error_message := none
      retry_count := 0 }
  (t, [LogEntry.created input_amount output_address delay_minutes])

/-- check_incoming_payment (mixing_service.py lines 111-140). The
received argument is the getreceivedbyaddress answer and txlist is the
txid list of the listreceivedbyaddress answer; an Except.error models
the RPC raising, caught by the except block which leaves the row
untouched and returns False. Note the source has no status guard: any
existing transaction whose address carries enough funds is moved to
MIXING. -/
def check_incoming_payment (tx : MixingTransaction) (now : Int)
    (received : Except String Rat) (txlist : Except String (List String))
    (logs : List LogEntry) : OpResult :=
  match received with
  | Except.error _ => ⟨tx, logs, false⟩
  | Except.ok r =>
    if tx.input_amount ≤ r then
      match txlist with
      | Except.error _ => ⟨tx, logs, false⟩
      | Except.ok txids =>
        let tx1 :=
          match txids with
          | [] => tx
          | t :: _ => { tx with input_txid := some t }
        let tx2 := { tx1 with status := TransactionStatus.MIXING,
                              mixing_started_at := some now }
        ⟨tx2, logs ++ [LogEntry.payment_received r tx2.input_txid], true⟩
    else ⟨tx, logs, false⟩

/-- random.choice over a nonempty pool list, the chooser index supplied
by the environment. -/
def choose_address (a : String) (rest : List String) (choice : Nat) : String :=
  (a :: rest).get ⟨choice % (a :: rest).length, Nat.mod_lt _ (Nat.succ_pos _)⟩

/-- The source address of a round hop (mixing_service.py lines 155-161):
the input address on the first round, the current holding address on
later rounds. -/
def round_from_address (tx : MixingTransaction) : String :=
  if tx.mixing_rounds_completed = 0 then tx.input_address
  else tx.mixing_address.getD ""

/-- Where, if anywhere, the body of perform_mixing_round raises after the
round counter has already been incremented: ok means no such error, and
atLog a failure of the _log_action database write (the same shape covers
the completion bookkeeping and the final commit, each of which also runs
after the increment). Errors before the increment are modelled by the
pool argument being Except.error or the empty list. -/
inductive RoundFault where
  | ok
  | atLog (msg : String)
deriving DecidableEq

/-- perform_mixing_round (mixing_service.py lines 142-193). The pool
argument is the get_mixing_pool_addresses answer; choice drives
random.choice. The except handler marks the row FAILED, records the
message, and commits whatever attribute mutations already happened,
which is why the atLog branch keeps the incremented counter. -/
def perform_mixing_round (cfg : Config) (tx : MixingTransaction) (now : Int)
    (pool : Except String (List String)) (choice : Nat) (fault : RoundFault)
    (logs : List LogEntry) : OpResult :=
  if tx.status ≠ TransactionStatus.MIXING then ⟨tx, logs, false⟩
  else
    match pool with
    | Except.error msg =>
      ⟨{ tx with status := TransactionStatus.FAILED, error_message := some msg },
       logs, false⟩
    | Except.ok pool_addresses =>
      match pool_addresses with
      | [] =>
        ⟨{ tx with status := TransactionStatus.FAILED,
                   error_message := some "IndexError" }, logs, false⟩
      | a :: rest =>
        let mixing_address := choose_address a rest choice
        let from_address := round_from_address tx
        let amount_to_send := tx.output_amount * (99 / 100)
        let tx1 := { tx with mixing_address := some mixing_address,
                             mixing_rounds_completed := tx.mixing_rounds_completed + 1 }
        match fault with
        | RoundFault.atLog msg =>
          ⟨{ tx1 with status := TransactionStatus.FAILED, error_message := some msg },
           logs, false⟩
        | RoundFault.ok =>
          let logs1 := logs ++ [LogEntry.mixing_round tx1.mixing_rounds_completed
                                  from_address mixing_address amount_to_send]
          if cfg.MIXING_ROUNDS ≤ tx1.mixing_rounds_completed then
            let tx2 := { tx1 with status := TransactionStatus.COMPLETED,
                                  completed_at := some now }
            ⟨tx2, logs1 ++ [LogEntry.output_scheduled tx2.scheduled_output_time
                               tx2.output_address], true⟩
          else ⟨tx1, logs1, true⟩

/-- send_output_transaction (mixing_service.py lines 204-233). The send
argument is the sendtoaddress answer. The only guard in the source is
the COMPLETED status check: there is no test of output_txid. -/
def send_output_transaction (tx : MixingTransaction)
    (send : Except String String) (logs : List LogEntry) : OpResult :=
  if tx.status ≠ TransactionStatus.COMPLETED then ⟨tx, logs, false⟩
  else
    match send with
    | Except.error msg =>
      ⟨{ tx with error_message := some msg, retry_count := tx.retry_count + 1 },
       logs, false⟩
    | Except.ok txid =>
      ⟨{ tx with output_txid := some txid },
       logs ++ [LogEntry.output_sent txid tx.output_amount tx.output_address], true⟩

/-- The selection query of send_scheduled_outputs (tasks.py lines
120-124): COMPLETED, scheduled time due, and output_txid still null. A
null scheduled_output_time compares false, as in SQL. -/
def send_scheduled_outputs_query (now : Int) (txs : List MixingTransaction) :
    List MixingTransaction :=
  txs.filter fun tx =>
    decide (tx.status = TransactionStatus.COMPLETED)
    && (match tx.scheduled_output_time with
        | some t => decide (t ≤ now)
        | none => false)
    && decide (tx.output_txid = none)

/-- The selection query of check_pending_payments (tasks.py lines
46-50): PENDING and younger than 24 hours. -/
def check_pending_payments_query (now : Int) (txs : List MixingTransaction) :
    List MixingTransaction :=
  txs.filter fun tx =>
    decide (tx.status = TransactionStatus.PENDING)
    && decide (now - 86400 ≤ tx.created_at)

/-- cleanup_old_transactions (tasks.py lines 139-170): returns the rows
that survive, every row with created_at before the 30 day cutoff being
deleted with no condition on status or payout. -/
def cleanup_old_transactions (now : Int) (txs : List MixingTransaction) :
    List MixingTransaction :=
  let cutoff_date := now - 30 * 86400
  txs.filter fun tx => !decide (tx.created_at < cutoff_date)

/-- MixerForm.validate_amount (mixer_service.py lines 66-70): raises
unless the amount is within the configured bounds. -/
def validate_amount (cfg : Config) (amount : Rat) : Bool :=
  !decide (amount < cfg.MIN_AMOUNT) && !decide (cfg.MAX_AMOUNT < amount)

/-- MixerForm.validate_output_address (mixer_service.py lines 72-74):
passes the isvalid answer of the RPC validateaddress call through. -/
def validate_output_address (isvalid : Bool) : Bool :=
  isvalid

/-- The mixer route (mixer_service.py lines 147-186), modelled by what it
persists: none when nothing is persisted, some when the created
transaction and its log entry are committed. After the form validates,
the route first runs check_suspicious_activity (lines 160-162), whose
false answer (the activity_ok argument) aborts with 429 and persists
nothing; then create_mixing_transaction runs, whose getnewaddress wallet
call (the getnewaddress argument, line 77 of mixing_service.py) raises
before the database add and commit, so its failure reaches the except
handler (abort 500) with nothing persisted. A failure after the commit,
such as the QR rendering of line 174, aborts the response but leaves the
transaction persisted; that path changes nothing about which
transactions get persisted and is not separated here. -/
def mixer_route (cfg : Config) (amount : Rat) (output_address : String)
    (addr_isvalid activity_ok : Bool) (getnewaddress : Except String String)
    (session_id ip_hash user_agent_hash : String)
    (delay_minutes now : Int) : Option (MixingTransaction × List LogEntry) :=
  if validate_amount cfg amount && validate_output_address addr_isvalid then
    if activity_ok then
      match getnewaddress with
      | Except.error _ => none
      | Except.ok input_address =>
        some (create_mixing_transaction cfg amount output_address session_id ip_hash
                user_agent_hash input_address delay_minutes now)
    else none
  else none

/-- Two overlapped database sessions running perform_mixing_round on the
same transaction id: both SELECT the same committed row before either
commits, then session 1 commits and session 2 commits last, its
unconditional row UPDATE overwriting the first (last writer wins), while
the log INSERTs of both sessions persist. This is the schedule the
sources ORM code produces with no locking and no conditional update. -/
structure OverlapResult where
  tx : MixingTransaction
  logs : List LogEntry
  ok1 : Bool
  ok2 : Bool
deriving DecidableEq

def perform_mixing_round_overlapped (cfg : Config) (tx : MixingTransaction)
    (now1 now2 : Int) (pool1 pool2 : Except String (List String))
    (choice1 choice2 : Nat) (fault1 fault2 : RoundFault)
    (logs : List LogEntry) : OverlapResult :=
  let r1 := perform_mixing_round cfg tx now1 pool1 choice1 fault1 []
  let r2 := perform_mixing_round cfg tx now2 pool2 choice2 fault2 []
  ⟨r2.tx, logs ++ r1.logs ++ r2.logs, r1.ok, r2.ok⟩

/-- One engine operation together with its environment answers, for
trace reasoning over a single transaction. -/
inductive EngineOp where
  | checkPayment (now : Int) (received : Except String Rat)
      (txlist : Except String (List String))
  | mixRound (now : Int) (pool : Except String (List String))
      (choice : Nat) (fault : RoundFault)
  | sendOutput (send : Except String String)

def applyOp (cfg : Config) (op : EngineOp)
    (s : MixingTransaction × List LogEntry) : OpResult :=
  match op with
  | EngineOp.checkPayment now received txlist =>
    check_incoming_payment s.1 now received txlist s.2
  | EngineOp.mixRound now pool choice fault =>
    perform_mixing_round cfg s.1 now pool choice fault s.2
  | EngineOp.sendOutput send =>
    send_output_transaction s.1 send s.2

def runOps (cfg : Config) (s : MixingTransaction × List LogEntry) :
    List EngineOp → MixingTransaction × List LogEntry
  | [] => s
  | op :: ops => runOps cfg ((applyOp cfg op s).tx, (applyOp cfg op s).logs) ops

/-- Guard of one trace step: a payment check may only run on a PENDING
transaction, any other operation is unrestricted. -/
def opPendingGuard (op : EngineOp) (st : TransactionStatus) : Bool :=
  match op with
  | EngineOp.checkPayment _ _ _ => decide (st = TransactionStatus.PENDING)
  | _ => true

/-- Holds when every checkPayment step of the trace is taken from status
PENDING, which is how the scheduler drives detectPayment: the
check_pending_payments query selects only PENDING rows. -/
def pendingDetectRun (cfg : Config) (s : MixingTransaction × List LogEntry) :
    List EngineOp → Bool
  | [] => true
  | op :: ops =>
    opPendingGuard op s.1.status
    && pendingDetectRun cfg ((applyOp cfg op s).tx, (applyOp cfg op s).logs) ops

/-- The round counter invariant of the spec: bounded by the configured
rounds, strictly below them while still PENDING or MIXING, and equal to
them in COMPLETED. -/
def roundsInv (cfg : Config) (tx : MixingTransaction) : Prop :=
  tx.mixing_rounds_completed ≤ cfg.MIXING_ROUNDS
  ∧ ((tx.status = TransactionStatus.PENDING ∨ tx.status = TransactionStatus.MIXING) →
      tx.mixing_rounds_completed < cfg.MIXING_ROUNDS)
  ∧ (tx.status = TransactionStatus.COMPLETED →
      tx.mixing_rounds_completed = cfg.MIXING_ROUNDS)

/-! Concrete transactions used by the counterexamples and witnesses. -/

def baseTx : MixingTransaction :=
  { session_id := "s1"
    input_amount := 1
    fee_amount := 3 / 100
    output_amount := 97 / 100
    input_address := "IN"
    output_address := "OUT"
    mixing_address := none
    status := TransactionStatus.PENDING
    mixing_rounds_completed := 0
    input_txid := none
    output_txid := none
    created_at := 0
    mixing_started_at := none
    completed_at := none
    scheduled_output_time := some 600
    ip_hash := "ih"
    user_agent_hash := "uh"
    error_message := none
    retry_count := 0 }

def failedTx : MixingTransaction :=
  { baseTx with status := TransactionStatus.FAILED, error_message := some "boom" }

def mixingTx : MixingTransaction :=
  { baseTx with status := TransactionStatus.MIXING,
                mixing_started_at := some 100, input_txid := some "t1" }

def mixingTxA : MixingTransaction :=
  { mixingTx with mixing_address := some "A", mixing_rounds_completed := 1 }

def completedPaidTx : MixingTransaction :=
  { baseTx with status := TransactionStatus.COMPLETED,
                mixing_rounds_completed := 3, completed_at := some 500,
                input_txid := some "t1", output_txid := some "t-old" }

/-- C1: counterexample. A COMPLETED transaction already carrying the
payout reference t-old is paid again by send_output_transaction: the
wallet send answer t-new is consumed and recorded over the old
reference, an OUTPUT_SENT entry is appended, and the call reports
success, so the claimed no-op behaviour fails. -/
theorem C1_send_output_resends_counterexample :
    completedPaidTx.output_txid = some "t-old"
    ∧ completedPaidTx.status = TransactionStatus.COMPLETED
    ∧ (send_output_transaction completedPaidTx (Except.ok "t-new") []).ok = true
    ∧ (send_output_transaction completedPaidTx (Except.ok "t-new") []).tx.output_txid
        = some "t-new"
    ∧ (send_output_transaction completedPaidTx (Except.ok "t-new") []).logs
        = [LogEntry.output_sent "t-new" (97 / 100) "OUT"] :=
  ⟨rfl, rfl, rfl, rfl, rfl⟩

/-- C1 (amended): send_output_transaction guards only on the COMPLETED
status and, invoked on an already paid transaction, sends again,
overwrites the payout reference, and appends another OUTPUT_SENT entry;
the no-double-pay property holds only of the scheduled path, because the
send_scheduled_outputs query never selects a transaction whose
output_txid is already recorded. -/
theorem C1_payout_guard_amended :
    (∀ (now : Int) (txs : List MixingTransaction) (tx : MixingTransaction),
        tx ∈ send_scheduled_outputs_query now txs →
        tx.status = TransactionStatus.COMPLETED ∧ tx.output_txid = none)
    ∧ (∀ (tx : MixingTransaction) (txid old : String) (logs : List LogEntry),
        tx.status = TransactionStatus.COMPLETED → tx.output_txid = some old →
        (send_output_transaction tx (Except.ok txid) logs).tx.output_txid = some txid
        ∧ (send_output_transaction tx (Except.ok txid) logs).ok = true
        ∧ (send_output_transaction tx (Except.ok txid) logs).logs
            = logs ++ [LogEntry.output_sent txid tx.output_amount tx.output_address]) := by
  constructor
  · intro now txs tx h
    rw [send_scheduled_outputs_query, List.mem_filter] at h
    obtain ⟨-, h⟩ := h
    simp only [Bool.and_eq_true, decide_eq_true_eq] at h
    exact ⟨h.1.1, h.2⟩
  · intro tx txid old logs hst hold
    simp [send_output_transaction, hst]

/-- C1 witness: the amended theorem applied at the concrete already paid
transaction. -/
theorem C1_payout_guard_witness :
    (send_output_transaction completedPaidTx (Except.ok "t-new") []).tx.output_txid
      = some "t-new" :=
  (C1_payout_guard_amended.2 completedPaidTx "t-new" "t-old" [] rfl rfl).1

/-- C2: counterexample. check_incoming_payment carries no status guard:
on a FAILED transaction whose input address shows enough received funds
it writes status MIXING, so the engine does move a transaction out of
FAILED, against the forward-only transition claim. -/
theorem C2_failed_escape_counterexample :
    failedTx.status = TransactionStatus.FAILED
    ∧ (check_incoming_payment failedTx 200 (Except.ok 5) (Except.ok ["t9"]) []).tx.status
        = TransactionStatus.MIXING
    ∧ (check_incoming_payment failedTx 200 (Except.ok 5) (Except.ok ["t9"]) []).ok
        = true :=
  ⟨rfl, rfl, rfl⟩

/-- C2 (amended): perform_mixing_round acts only on MIXING transactions
and send_output_transaction only on COMPLETED ones, each leaving any
other transaction (in particular FAILED and CANCELLED ones) fully
untouched; check_incoming_payment, however, either leaves everything
untouched or sets status MIXING, with no regard for the prior status, so
the no-escape-from-FAILED/CANCELLED property fails exactly there. -/
theorem C2_status_guards_amended :
    (∀ (cfg : Config) (tx : MixingTransaction) (now : Int)
        (pool : Except String (List String)) (choice : Nat) (fault : RoundFault)
        (logs : List LogEntry), tx.status ≠ TransactionStatus.MIXING →
        perform_mixing_round cfg tx now pool choice fault logs = ⟨tx, logs, false⟩)
    ∧ (∀ (tx : MixingTransaction) (send : Except String String) (logs : List LogEntry),
        tx.status ≠ TransactionStatus.COMPLETED →
        send_output_transaction tx send logs = ⟨tx, logs, false⟩)
    ∧ (∀ (tx : MixingTransaction) (now : Int) (received : Except String Rat)
        (txlist : Except String (List String)) (logs : List LogEntry),
        (check_incoming_payment tx now received txlist logs).tx.status
          = TransactionStatus.MIXING
        ∨ check_incoming_payment tx now received txlist logs = ⟨tx, logs, false⟩) := by
  refine ⟨?_, ?_, ?_⟩
  · intro cfg tx now pool choice fault logs h
    simp [perform_mixing_round, h]
  · intro tx send logs h
    simp [send_output_transaction, h]
  · intro tx now received txlist logs
    cases received with
    | error msg => exact Or.inr rfl
    | ok r =>
      by_cases hr : tx.input_amount ≤ r
      · cases txlist with
        | error msg => simp [check_incoming_payment, hr]
        | ok txids =>
          cases txids with
          | nil => simp [check_incoming_payment, hr]
          | cons t ts => simp [check_incoming_payment, hr]
      · simp [check_incoming_payment, hr]

/-- C2 witness: the amended theorem applied to a FAILED transaction that
perform_mixing_round leaves untouched. -/
theorem C2_status_guards_witness :
    perform_mixing_round defaultConfig failedTx 300 (Except.ok ["B"]) 0 RoundFault.ok []
      = ⟨failedTx, [], false⟩ :=
  C2_status_guards_amended.1 defaultConfig failedTx 300 (Except.ok ["B"]) 0
    RoundFault.ok [] (by decide)

/-- C3: counterexample. A second check_incoming_payment call on an
already MIXING transaction (the cumulative received funds still cover
the amount) is not a no-op: it returns true rather than an
already-processed result, appends a second PAYMENT_RECEIVED entry, and
rewrites mixing_started_at and input_txid. -/
theorem C3_detect_not_idempotent_counterexample :
    mixingTx.status = TransactionStatus.MIXING
    ∧ mixingTx.mixing_started_at = some 100
    ∧ mixingTx.input_txid = some "t1"
    ∧ (check_incoming_payment mixingTx 200 (Except.ok 1) (Except.ok ["t2"])
         [LogEntry.payment_received 1 (some "t1")]).ok = true
    ∧ (check_incoming_payment mixingTx 200 (Except.ok 1) (Except.ok ["t2"])
         [LogEntry.payment_received 1 (some "t1")]).tx.mixing_started_at = some 200
    ∧ (check_incoming_payment mixingTx 200 (Except.ok 1) (Except.ok ["t2"])
         [LogEntry.payment_received 1 (some "t1")]).tx.input_txid = some "t2"
    ∧ (check_incoming_payment mixingTx 200 (Except.ok 1) (Except.ok ["t2"])
         [LogEntry.payment_received 1 (some "t1")]).logs
        = [LogEntry.payment_received 1 (some "t1"),
           LogEntry.payment_received 1 (some "t2")] :=
  ⟨rfl, rfl, rfl, rfl, rfl, rfl, rfl⟩

/-- C3 (amended): re-invoking check_incoming_payment on an already
MIXING transaction whose address still shows sufficient received funds
returns true again, appends a duplicate PAYMENT_RECEIVED entry, restamps
mixing_started_at with the new clock value and reassigns input_txid to
the head of the current txid list; only the status value is unchanged. -/
theorem C3_second_detect_amended (tx : MixingTransaction) (now : Int) (r : Rat)
    (t : String) (ts : List String) (logs : List LogEntry)
    (hm : tx.status = TransactionStatus.MIXING) (hr : tx.input_amount ≤ r) :
    (check_incoming_payment tx now (Except.ok r) (Except.ok (t :: ts)) logs).ok = true
    ∧ (check_incoming_payment tx now (Except.ok r) (Except.ok (t :: ts)) logs).tx.status
        = TransactionStatus.MIXING
    ∧ (check_incoming_payment tx now (Except.ok r) (Except.ok (t :: ts)) logs).tx.mixing_started_at
        = some now
    ∧ (check_incoming_payment tx now (Except.ok r) (Except.ok (t :: ts)) logs).tx.input_txid
        = some t
    ∧ (check_incoming_payment tx now (Except.ok r) (Except.ok (t :: ts)) logs).logs
        = logs ++ [LogEntry.payment_received r (some t)] := by
  simp [check_incoming_payment, hr]

/-- C3 witness: the amended theorem applied at a concrete MIXING
transaction, showing the restamped mixing start time. -/
theorem C3_second_detect_witness :
    (check_incoming_payment mixingTx 200 (Except.ok 1) (Except.ok ["t2"])
       [LogEntry.payment_received 1 (some "t1")]).tx.mixing_started_at = some 200 :=
  (C3_second_detect_amended mixingTx 200 1 "t2" []
     [LogEntry.payment_received 1 (some "t1")] rfl (le_refl 1)).2.2.1

/-- C4: counterexample. On a MIXING transaction with one completed
round, an error raised in the audit log write after the counter
increment leaves the transaction FAILED with the message recorded but
with the counter already advanced to 2, so the failed round is not left
at its prior counter value. -/
theorem C4_late_error_increments_counterexample :
    mixingTxA.status = TransactionStatus.MIXING
    ∧ mixingTxA.mixing_rounds_completed = 1
    ∧ (perform_mixing_round defaultConfig mixingTxA 300 (Except.ok ["B"]) 0
         (RoundFault.atLog "db write failed") []).tx.status = TransactionStatus.FAILED
    ∧ (perform_mixing_round defaultConfig mixingTxA 300 (Except.ok ["B"]) 0
         (RoundFault.atLog "db write failed") []).tx.mixing_rounds_completed = 2
    ∧ (perform_mixing_round defaultConfig mixingTxA 300 (Except.ok ["B"]) 0
         (RoundFault.atLog "db write failed") []).tx.error_message
        = some "db write failed" :=
  ⟨rfl, rfl, rfl, rfl, rfl⟩

/-- C4 (amended): any backend error during perform_mixing_round on a
MIXING transaction marks it FAILED with the message recorded and returns
false; the round counter keeps its prior value when the error happens
during pool allocation (before the increment), but an error raised after
the increment, such as a failing audit log write, is committed together
with the already incremented counter. -/
theorem C4_round_failure_amended (cfg : Config) (tx : MixingTransaction)
    (now : Int) (msg : String) (choice : Nat) (logs : List LogEntry)
    (hm : tx.status = TransactionStatus.MIXING) :
    ((perform_mixing_round cfg tx now (Except.error msg) choice RoundFault.ok logs).tx.status
        = TransactionStatus.FAILED
      ∧ (perform_mixing_round cfg tx now (Except.error msg) choice RoundFault.ok logs).tx.error_message
        = some msg
      ∧ (perform_mixing_round cfg tx now (Except.error msg) choice RoundFault.ok logs).tx.mixing_rounds_completed
        = tx.mixing_rounds_completed
      ∧ (perform_mixing_round cfg tx now (Except.error msg) choice RoundFault.ok logs).ok
        = false)
    ∧ (∀ (a : String) (rest : List String),
        (perform_mixing_round cfg tx now (Except.ok (a :: rest)) choice
            (RoundFault.atLog msg) logs).tx.status = TransactionStatus.FAILED
        ∧ (perform_mixing_round cfg tx now (Except.ok (a :: rest)) choice
            (RoundFault.atLog msg) logs).tx.error_message = some msg
        ∧ (perform_mixing_round cfg tx now (Except.ok (a :: rest)) choice
            (RoundFault.atLog msg) logs).tx.mixing_rounds_completed
          = tx.mixing_rounds_completed + 1
        ∧ (perform_mixing_round cfg tx now (Except.ok (a :: rest)) choice
            (RoundFault.atLog msg) logs).ok = false) := by
  constructor
  · simp [perform_mixing_round, hm]
  · intro a rest
    simp [perform_mixing_round, hm]

/-- C4 witness: the amended theorem applied at a concrete late log
failure, exhibiting the committed increment. -/
theorem C4_round_failure_witness :
    (perform_mixing_round defaultConfig mixingTxA 300 (Except.ok ["B"]) 0
       (RoundFault.atLog "db write failed") []).tx.mixing_rounds_completed
      = mixingTxA.mixing_rounds_completed + 1 :=
  ((C4_round_failure_amended defaultConfig mixingTxA 300 "db write failed" 0 []
      rfl).2 "B" []).2.2.1

/-- C6: counterexample. With the current holding address A and a pool
answer consisting of the single address A, the round succeeds and the
new holding address is again A: the hop destination equals the
immediately prior holding address, and the log entry records the A to A
move. -/
theorem C6_destination_collision_counterexample :
    mixingTxA.mixing_address = some "A"
    ∧ (perform_mixing_round defaultConfig mixingTxA 300 (Except.ok ["A"]) 0
         RoundFault.ok []).ok = true
    ∧ (perform_mixing_round defaultConfig mixingTxA 300 (Except.ok ["A"]) 0
         RoundFault.ok []).tx.mixing_address = some "A"
    ∧ (perform_mixing_round defaultConfig mixingTxA 300 (Except.ok ["A"]) 0
         RoundFault.ok []).logs
        = [LogEntry.mixing_round 2 "A" "A" ((97 / 100) * (99 / 100))] :=
  ⟨rfl, rfl, rfl, rfl⟩

/-- C6 (amended): a successful round stores as new holding address
exactly the pool address picked by random.choice, with no distinctness
check against the current holding address, so the destination coincides
with the prior holding address whenever the pick collides with it. -/
theorem C6_destination_amended (cfg : Config) (tx : MixingTransaction) (now : Int)
    (a : String) (rest : List String) (choice : Nat) (logs : List LogEntry)
    (hm : tx.status = TransactionStatus.MIXING) :
    (perform_mixing_round cfg tx now (Except.ok (a :: rest)) choice
        RoundFault.ok logs).tx.mixing_address
      = some (choose_address a rest choice) := by
  simp only [perform_mixing_round, hm]
  by_cases hc : cfg.MIXING_ROUNDS ≤ tx.mixing_rounds_completed + 1 <;>
    simp [hc]

/-- C6 witness: the amended theorem applied at the colliding pool of
size one. -/
theorem C6_destination_witness :
    (perform_mixing_round defaultConfig mixingTxA 300 (Except.ok ["A"]) 0
       RoundFault.ok []).tx.mixing_address = some (choose_address "A" [] 0) :=
  C6_destination_amended defaultConfig mixingTxA 300 "A" [] 0 [] rfl

/-- C7: counterexample. create_mixing_transaction performs no validation
itself: called with amount 1000, far above the configured maximum of
100, it still builds and persists a PENDING transaction and its CREATED
log entry. -/
theorem C7_create_no_validation_counterexample :
    defaultConfig.MAX_AMOUNT < 1000
    ∧ (create_mixing_transaction defaultConfig 1000 "OUT" "s1" "ih" "uh" "IN" 10 0).1.status
        = TransactionStatus.PENDING
    ∧ (create_mixing_transaction defaultConfig 1000 "OUT" "s1" "ih" "uh" "IN" 10 0).1.input_amount
        = 1000
    ∧ (create_mixing_transaction defaultConfig 1000 "OUT" "s1" "ih" "uh" "IN" 10 0).2
        = [LogEntry.created 1000 "OUT" 10] :=
  ⟨by norm_num [defaultConfig], rfl, rfl, rfl⟩

/-- Helper: the combined MixerForm validation passes exactly when the
amount respects both bounds and the address validates. -/
theorem mixer_form_ok_iff (cfg : Config) (amount : Rat) (isvalid : Bool) :
    (validate_amount cfg amount && validate_output_address isvalid) = true
      ↔ (¬ amount < cfg.MIN_AMOUNT ∧ ¬ cfg.MAX_AMOUNT < amount ∧ isvalid = true) := by
  simp [validate_amount, validate_output_address, and_assoc]

/-- C7 (amended): the amount bound and address format checks live in the
MixerForm validators of the web layer, not in create_mixing_transaction
(which, per the counterexample, persists whatever it is given): a
request whose amount is below the minimum, above the maximum, or whose
address fails validation is rejected by the route with nothing
persisted, and conversely every transaction the route persists passed
both checks. Nothing persisted does not imply an invalid form: a
flagged fingerprint (the 429 abort) and a wallet failure inside create
(the 500 abort) also persist nothing, as the last two parts state. -/
theorem C7_form_validation_amended (cfg : Config) (amount : Rat)
    (output_address : String) (addr_isvalid activity_ok : Bool)
    (getnewaddress : Except String String)
    (session_id ip_hash user_agent_hash : String)
    (delay_minutes now : Int) :
    ((amount < cfg.MIN_AMOUNT ∨ cfg.MAX_AMOUNT < amount ∨ addr_isvalid = false) →
      mixer_route cfg amount output_address addr_isvalid activity_ok getnewaddress
        session_id ip_hash user_agent_hash delay_minutes now = none)
    ∧ (∀ p, mixer_route cfg amount output_address addr_isvalid activity_ok getnewaddress
          session_id ip_hash user_agent_hash delay_minutes now = some p →
        ¬ amount < cfg.MIN_AMOUNT ∧ ¬ cfg.MAX_AMOUNT < amount ∧ addr_isvalid = true)
    ∧ (activity_ok = false →
      mixer_route cfg amount output_address addr_isvalid activity_ok getnewaddress
        session_id ip_hash user_agent_hash delay_minutes now = none)
    ∧ (∀ msg, getnewaddress = Except.error msg →
      mixer_route cfg amount output_address addr_isvalid activity_ok getnewaddress
        session_id ip_hash user_agent_hash delay_minutes now = none) := by
  refine ⟨?_, ?_, ?_, ?_⟩
  · intro hd
    have hv : (validate_amount cfg amount && validate_output_address addr_isvalid)
        = false := by
      rcases hd with hd | hd | hd
      · simp [validate_amount, validate_output_address, hd]
      · simp [validate_amount, validate_output_address, hd]
      · simp [validate_amount, validate_output_address, hd]
    simp [mixer_route, hv]
  · intro p hp
    by_cases hv : (validate_amount cfg amount && validate_output_address addr_isvalid)
        = true
    · exact (mixer_form_ok_iff cfg amount addr_isvalid).mp hv
    · rw [mixer_route.eq_def, if_neg hv] at hp
      exact Option.noConfusion hp
  · intro ha
    subst ha
    rw [mixer_route.eq_def]
    by_cases hv : (validate_amount cfg amount && validate_output_address addr_isvalid)
        = true
    · rw [if_pos hv]
      rfl
    · rw [if_neg hv]
  · intro msg hmsg
    subst hmsg
    rw [mixer_route.eq_def]
    by_cases hv : (validate_amount cfg amount && validate_output_address addr_isvalid)
        = true
    · rw [if_pos hv]
      cases activity_ok
      · rfl
      · rfl
    · rw [if_neg hv]

/-- C7 witness: the amended theorem applied at a request whose address
fails validation, persisting nothing. -/
theorem C7_form_validation_witness :
    mixer_route defaultConfig 1 "OUT" false true (Except.ok "IN")
      "s1" "ih" "uh" 10 0 = none :=
  (C7_form_validation_amended defaultConfig 1 "OUT" false true (Except.ok "IN")
     "s1" "ih" "uh" 10 0).1 (Or.inr (Or.inr rfl))

/-- C10: the retention cleanup keeps exactly the transactions created at
or after the 30 day cutoff: survival depends on created_at alone, so a
row older than the cutoff is deleted whatever its status or payout
state, PENDING, MIXING and unpaid COMPLETED rows included. -/
theorem C10_cleanup_age_only (now : Int) (txs : List MixingTransaction)
    (tx : MixingTransaction) :
    tx ∈ cleanup_old_transactions now txs
      ↔ (tx ∈ txs ∧ ¬ tx.created_at < now - 30 * 86400) := by
  simp [cleanup_old_transactions, List.mem_filter]

/-- Helper: no engine operation, under any configuration, changes the
three amounts fixed at creation. -/
theorem applyOp_amounts (cfg : Config) (op : EngineOp)
    (s : MixingTransaction × List LogEntry) :
    (applyOp cfg op s).tx.input_amount = s.1.input_amount
    ∧ (applyOp cfg op s).tx.fee_amount = s.1.fee_amount
    ∧ (applyOp cfg op s).tx.output_amount = s.1.output_amount := by
  rcases op with ⟨now, received, txlist⟩ | ⟨now, pool, choice, fault⟩ | ⟨send⟩
  · cases received with
    | error m => exact ⟨rfl, rfl, rfl⟩
    | ok r =>
      by_cases hr : s.1.input_amount ≤ r
      · cases txlist with
        | error m => simp [applyOp, check_incoming_payment, hr]
        | ok txids =>
          cases txids with
          | nil => simp [applyOp, check_incoming_payment, hr]
          | cons t ts => simp [applyOp, check_incoming_payment, hr]
      · simp [applyOp, check_incoming_payment, hr]
  · by_cases hs : s.1.status = TransactionStatus.MIXING
    · cases pool with
      | error m => simp [applyOp, perform_mixing_round, hs]
      | ok addrs =>
        cases addrs with
        | nil => simp [applyOp, perform_mixing_round, hs]
        | cons a rest =>
          cases fault with
          | atLog m => simp [applyOp, perform_mixing_round, hs]
          | ok =>
            by_cases hc : cfg.MIXING_ROUNDS ≤ s.1.mixing_rounds_completed + 1 <;>
              simp [applyOp, perform_mixing_round, hs, hc]
    · simp [applyOp, perform_mixing_round, hs]
  · by_cases hs : s.1.status = TransactionStatus.COMPLETED
    · cases send with
      | error m => simp [applyOp, send_output_transaction, hs]
      | ok txid => simp [applyOp, send_output_transaction, hs]
    · simp [applyOp, send_output_transaction, hs]

/-- C8: the persisted amounts are computed at creation as
fee = amount times rate and output = amount minus fee, so output plus
fee equals the input exactly, with the spec scenario of one coin at the
default three percent rate giving fee 3/100 and output 97/100; and no
engine operation, under any later configuration, ever rewrites any of
the three amounts. -/
theorem C8_amounts_exact (cfg : Config) (amount : Rat)
    (oa sid ih uh ia : String) (d now : Int) :
    ((create_mixing_transaction cfg amount oa sid ih uh ia d now).1.fee_amount
        = amount * cfg.FEE_PERCENT)
    ∧ ((create_mixing_transaction cfg amount oa sid ih uh ia d now).1.output_amount
        = amount - amount * cfg.FEE_PERCENT)
    ∧ ((create_mixing_transaction cfg amount oa sid ih uh ia d now).1.output_amount
        + (create_mixing_transaction cfg amount oa sid ih uh ia d now).1.fee_amount
        = amount)
    ∧ ((create_mixing_transaction defaultConfig 1 oa sid ih uh ia d now).1.fee_amount
        = 3 / 100)
    ∧ ((create_mixing_transaction defaultConfig 1 oa sid ih uh ia d now).1.output_amount
        = 97 / 100)
    ∧ (∀ (cfg2 : Config) (op : EngineOp) (s : MixingTransaction × List LogEntry),
        (applyOp cfg2 op s).tx.input_amount = s.1.input_amount
        ∧ (applyOp cfg2 op s).tx.fee_amount = s.1.fee_amount
        ∧ (applyOp cfg2 op s).tx.output_amount = s.1.output_amount) := by
  refine ⟨rfl, rfl, ?_, ?_, ?_, fun cfg2 op s => applyOp_amounts cfg2 op s⟩
  · show amount - amount * cfg.FEE_PERCENT + amount * cfg.FEE_PERCENT = amount
    ring
  · show (1 : Rat) * (3 / 100) = 3 / 100
    norm_num
  · show (1 : Rat) - 1 * (3 / 100) = 97 / 100
    norm_num

/-- C9: counterexample. Two overlapped invocations of
perform_mixing_round on the same MIXING transaction both read the same
row, both report success, and both append a MIXING_ROUND entry for round
one: no compare-and-set is performed and no caller observes a benign
no-op; the committed counter shows one round only because the second
commit overwrote the first. -/
theorem C9_no_cas_counterexample :
    (perform_mixing_round_overlapped defaultConfig mixingTx 300 301
       (Except.ok ["B"]) (Except.ok ["C"]) 0 0 RoundFault.ok RoundFault.ok []).ok1
      = true
    ∧ (perform_mixing_round_overlapped defaultConfig mixingTx 300 301
         (Except.ok ["B"]) (Except.ok ["C"]) 0 0 RoundFault.ok RoundFault.ok []).ok2
      = true
    ∧ (perform_mixing_round_overlapped defaultConfig mixingTx 300 301
         (Except.ok ["B"]) (Except.ok ["C"]) 0 0 RoundFault.ok RoundFault.ok []).tx.mixing_rounds_completed
      = 1
    ∧ (perform_mixing_round_overlapped defaultConfig mixingTx 300 301
         (Except.ok ["B"]) (Except.ok ["C"]) 0 0 RoundFault.ok RoundFault.ok []).logs
      = [LogEntry.mixing_round 1 "IN" "B" ((97 / 100) * (99 / 100)),
         LogEntry.mixing_round 1 "IN" "C" ((97 / 100) * (99 / 100))] :=
  ⟨rfl, rfl, rfl, rfl⟩

/-- C9 (amended): the round writes are plain last-writer-wins row
updates with no compare-and-set: in the fully overlapped schedule both
invocations read the same committed row, both perform the round and its
fund movement, both report success, and both append an audit entry for
the same round number; the committed counter nets exactly one increment
only because the second commit overwrites the first. -/
theorem C9_overlap_amended (cfg : Config) (tx : MixingTransaction)
    (now1 now2 : Int) (a1 a2 : String) (r1 r2 : List String)
    (c1 c2 : Nat) (logs : List LogEntry)
    (hm : tx.status = TransactionStatus.MIXING)
    (hlt : tx.mixing_rounds_completed + 1 < cfg.MIXING_ROUNDS) :
    (perform_mixing_round_overlapped cfg tx now1 now2 (Except.ok (a1 :: r1))
        (Except.ok (a2 :: r2)) c1 c2 RoundFault.ok RoundFault.ok logs).tx.mixing_rounds_completed
      = tx.mixing_rounds_completed + 1
    ∧ (perform_mixing_round_overlapped cfg tx now1 now2 (Except.ok (a1 :: r1))
        (Except.ok (a2 :: r2)) c1 c2 RoundFault.ok RoundFault.ok logs).ok1 = true
    ∧ (perform_mixing_round_overlapped cfg tx now1 now2 (Except.ok (a1 :: r1))
        (Except.ok (a2 :: r2)) c1 c2 RoundFault.ok RoundFault.ok logs).ok2 = true
    ∧ (perform_mixing_round_overlapped cfg tx now1 now2 (Except.ok (a1 :: r1))
        (Except.ok (a2 :: r2)) c1 c2 RoundFault.ok RoundFault.ok logs).logs
      = logs
        ++ [LogEntry.mixing_round (tx.mixing_rounds_completed + 1)
              (round_from_address tx) (choose_address a1 r1 c1)
              (tx.output_amount * (99 / 100)),
            LogEntry.mixing_round (tx.mixing_rounds_completed + 1)
              (round_from_address tx) (choose_address a2 r2 c2)
              (tx.output_amount * (99 / 100))] := by
  have hc : ¬ cfg.MIXING_ROUNDS ≤ tx.mixing_rounds_completed + 1 := not_le.mpr hlt
  refine ⟨?_, ?_, ?_, ?_⟩ <;>
    simp [perform_mixing_round_overlapped, perform_mixing_round, hm, hc]

/-- C9 witness: the amended theorem applied at the concrete overlapped
schedule of the counterexample. -/
theorem C9_overlap_witness :
    (perform_mixing_round_overlapped defaultConfig mixingTx 300 301
       (Except.ok ["B"]) (Except.ok ["C"]) 0 0 RoundFault.ok RoundFault.ok
       []).tx.mixing_rounds_completed = 1 :=
  (C9_overlap_amended defaultConfig mixingTx 300 301 "B" "C" [] [] 0 0 []
     rfl (by decide)).1

/-- Helper: no engine operation ever decreases the round counter. -/
theorem applyOp_rounds_mono (cfg : Config) (op : EngineOp)
    (s : MixingTransaction × List LogEntry) :
    s.1.mixing_rounds_completed ≤ (applyOp cfg op s).tx.mixing_rounds_completed := by
  rcases op with ⟨now, received, txlist⟩ | ⟨now, pool, choice, fault⟩ | ⟨send⟩
  · cases received with
    | error m => exact Nat.le_refl _
    | ok r =>
      by_cases hr : s.1.input_amount ≤ r
      · cases txlist with
        | error m => simp [applyOp, check_incoming_payment, hr]
        | ok txids =>
          cases txids with
          | nil => simp [applyOp, check_incoming_payment, hr]
          | cons t ts => simp [applyOp, check_incoming_payment, hr]
      · simp [applyOp, check_incoming_payment, hr]
  · by_cases hs : s.1.status = TransactionStatus.MIXING
    · cases pool with
      | error m => simp [applyOp, perform_mixing_round, hs]
      | ok addrs =>
        cases addrs with
        | nil => simp [applyOp, perform_mixing_round, hs]
        | cons a rest =>
          cases fault with
          | atLog m => simp [applyOp, perform_mixing_round, hs]
          | ok =>
            by_cases hc : cfg.MIXING_ROUNDS ≤ s.1.mixing_rounds_completed + 1 <;>
              simp [applyOp, perform_mixing_round, hs, hc]
    · simp [applyOp, perform_mixing_round, hs]
  · by_cases hs : s.1.status = TransactionStatus.COMPLETED
    · cases send with
      | error m => simp [applyOp, send_output_transaction, hs]
      | ok txid => simp [applyOp, send_output_transaction, hs]
    · simp [applyOp, send_output_transaction, hs]

/-- Helper: check_incoming_payment keeps the round counter and either
keeps the status or sets it to MIXING. -/
theorem check_incoming_payment_outcome (tx : MixingTransaction) (now : Int)
    (received : Except String Rat) (txlist : Except String (List String))
    (logs : List LogEntry) :
    (check_incoming_payment tx now received txlist logs).tx.mixing_rounds_completed
      = tx.mixing_rounds_completed
    ∧ ((check_incoming_payment tx now received txlist logs).tx.status
          = TransactionStatus.MIXING
        ∨ (check_incoming_payment tx now received txlist logs).tx.status = tx.status) := by
  cases received with
  | error m => exact ⟨rfl, Or.inr rfl⟩
  | ok r =>
    by_cases hr : tx.input_amount ≤ r
    · cases txlist with
      | error m => simp [check_incoming_payment, hr]
      | ok txids =>
        cases txids with
        | nil => simp [check_incoming_payment, hr]
        | cons t ts => simp [check_incoming_payment, hr]
    · simp [check_incoming_payment, hr]

/-- Helper: the round counter invariant is preserved by
check_incoming_payment when the transaction is PENDING. -/
theorem check_incoming_payment_roundsInv (cfg : Config) (tx : MixingTransaction)
    (now : Int) (received : Except String Rat) (txlist : Except String (List String))
    (logs : List LogEntry) (hp : tx.status = TransactionStatus.PENDING)
    (h : roundsInv cfg tx) :
    roundsInv cfg (check_incoming_payment tx now received txlist logs).tx := by
  obtain ⟨h1, h2, h3⟩ := h
  have hlt : tx.mixing_rounds_completed < cfg.MIXING_ROUNDS := h2 (Or.inl hp)
  obtain ⟨hr, hst⟩ := check_incoming_payment_outcome tx now received txlist logs
  refine ⟨?_, ?_, ?_⟩
  · rw [hr]; exact h1
  · intro _; rw [hr]; exact hlt
  · intro hc
    rcases hst with hst | hst
    · rw [hst] at hc; exact absurd hc (by simp)
    · rw [hst, hp] at hc; exact absurd hc (by simp)

/-- Helper: the round counter invariant is preserved by
perform_mixing_round from any status. -/
theorem perform_mixing_round_roundsInv (cfg : Config) (tx : MixingTransaction)
    (now : Int) (pool : Except String (List String)) (choice : Nat)
    (fault : RoundFault) (logs : List LogEntry)
    (h : roundsInv cfg tx) :
    roundsInv cfg (perform_mixing_round cfg tx now pool choice fault logs).tx := by
  obtain ⟨h1, h2, h3⟩ := h
  by_cases hs : tx.status = TransactionStatus.MIXING
  · have hlt : tx.mixing_rounds_completed < cfg.MIXING_ROUNDS := h2 (Or.inr hs)
    cases pool with
    | error m =>
      have he : perform_mixing_round cfg tx now (Except.error m) choice fault logs
          = ⟨{ tx with status := TransactionStatus.FAILED, error_message := some m },
             logs, false⟩ := by
        simp [perform_mixing_round, hs]
      rw [he]
      refine ⟨h1, ?_, ?_⟩
      · rintro (hc | hc) <;> simp at hc
      · intro hc; simp at hc
    | ok addrs =>
      cases addrs with
      | nil =>
        have he : perform_mixing_round cfg tx now (Except.ok []) choice fault logs
            = ⟨{ tx with status := TransactionStatus.FAILED,
                         error_message := some "IndexError" }, logs, false⟩ := by
          simp [perform_mixing_round, hs]
        rw [he]
        refine ⟨h1, ?_, ?_⟩
        · rintro (hc | hc) <;> simp at hc
        · intro hc; simp at hc
      | cons a rest =>
        cases fault with
        | atLog m =>
          refine ⟨?_, ?_, ?_⟩ <;> simp [perform_mixing_round, hs] <;> omega
        | ok =>
          by_cases hc : cfg.MIXING_ROUNDS ≤ tx.mixing_rounds_completed + 1 <;>
            refine ⟨?_, ?_, ?_⟩ <;> simp [perform_mixing_round, hs, hc] <;> omega
  · have he : perform_mixing_round cfg tx now pool choice fault logs
        = ⟨tx, logs, false⟩ := by
      simp [perform_mixing_round, hs]
    rw [he]
    exact ⟨h1, h2, h3⟩

/-- Helper: the round counter invariant is preserved by
send_output_transaction from any status. -/
theorem send_output_transaction_roundsInv (cfg : Config) (tx : MixingTransaction)
    (send : Except String String) (logs : List LogEntry)
    (h : roundsInv cfg tx) :
    roundsInv cfg (send_output_transaction tx send logs).tx := by
  obtain ⟨h1, h2, h3⟩ := h
  by_cases hs : tx.status = TransactionStatus.COMPLETED
  · cases send with
    | error m =>
      have he : send_output_transaction tx (Except.error m) logs
          = ⟨{ tx with error_message := some m, retry_count := tx.retry_count + 1 },
             logs, false⟩ := by
        simp [send_output_transaction, hs]
      rw [he]
      exact ⟨h1, h2, h3⟩
    | ok txid =>
      have he : send_output_transaction tx (Except.ok txid) logs
          = ⟨{ tx with output_txid := some txid },
             logs ++ [LogEntry.output_sent txid tx.output_amount tx.output_address],
             true⟩ := by
        simp [send_output_transaction, hs]
      rw [he]
      exact ⟨h1, h2, h3⟩
  · have he : send_output_transaction tx send logs = ⟨tx, logs, false⟩ := by
      simp [send_output_transaction, hs]
    rw [he]
    exact ⟨h1, h2, h3⟩

/-- Helper: one trace step preserves the invariant, provided a
checkPayment step is only taken from PENDING. -/
theorem applyOp_roundsInv (cfg : Config) (op : EngineOp)
    (s : MixingTransaction × List LogEntry)
    (hp : ∀ now received txlist, op = EngineOp.checkPayment now received txlist →
        s.1.status = TransactionStatus.PENDING)
    (h : roundsInv cfg s.1) :
    roundsInv cfg (applyOp cfg op s).tx := by
  rcases op with ⟨now, received, txlist⟩ | ⟨now, pool, choice, fault⟩ | ⟨send⟩
  · exact check_incoming_payment_roundsInv cfg s.1 now received txlist s.2
      (hp now received txlist rfl) h
  · exact perform_mixing_round_roundsInv cfg s.1 now pool choice fault s.2 h
  · exact send_output_transaction_roundsInv cfg s.1 send s.2 h

/-- Helper: the invariant holds after any PENDING-gated trace. -/
theorem runOps_roundsInv (cfg : Config) (ops : List EngineOp) :
    ∀ (s : MixingTransaction × List LogEntry),
      roundsInv cfg s.1 → pendingDetectRun cfg s ops = true →
      roundsInv cfg (runOps cfg s ops).1 := by
  induction ops with
  | nil => intro s h _; exact h
  | cons op ops ih =>
    intro s h hrun
    rw [pendingDetectRun, Bool.and_eq_true] at hrun
    obtain ⟨hg, hrest⟩ := hrun
    rw [runOps]
    refine ih _ ?_ hrest
    refine applyOp_roundsInv cfg op s ?_ h
    intro now received txlist heq
    subst heq
    simpa [opPendingGuard] using hg

/-- The trace of the C5 counterexample: payment detected, three rounds
completing the mix, then the on-demand payment check (the api
check_payment route invokes check_incoming_payment on any status) runs
again on the COMPLETED transaction, returning it to MIXING, and the next
round pushes the counter past the configured total. -/
def breakOps : List EngineOp :=
  [EngineOp.checkPayment 100 (Except.ok 1) (Except.ok ["t1"]),
   EngineOp.mixRound 200 (Except.ok ["B"]) 0 RoundFault.ok,
   EngineOp.mixRound 300 (Except.ok ["C"]) 0 RoundFault.ok,
   EngineOp.mixRound 400 (Except.ok ["D"]) 0 RoundFault.ok,
   EngineOp.checkPayment 500 (Except.ok 1) (Except.ok ["t1"]),
   EngineOp.mixRound 600 (Except.ok ["E"]) 0 RoundFault.ok]

/-- C5: counterexample. Driving a freshly created transaction through
the breakOps trace of real engine operations ends COMPLETED with four
completed rounds, above the configured total of three, so the bound and
the completion count of the claim both fail on the code as a whole. -/
theorem C5_rounds_exceed_counterexample :
    (runOps defaultConfig
        (create_mixing_transaction defaultConfig 1 "OUT" "s1" "ih" "uh" "IN" 10 0)
        breakOps).1.mixing_rounds_completed = 4
    ∧ (runOps defaultConfig
        (create_mixing_transaction defaultConfig 1 "OUT" "s1" "ih" "uh" "IN" 10 0)
        breakOps).1.status = TransactionStatus.COMPLETED
    ∧ defaultConfig.MIXING_ROUNDS = 3 :=
  ⟨rfl, rfl, rfl⟩

/-- C5 (amended): the round counter never decreases under any engine
operation; and along any trace whose payment checks are only taken from
status PENDING — the gating the payment scheduler provides, its query
selecting PENDING rows only — a freshly created transaction keeps
mixing_rounds_completed at or below the configured rounds and reaches
COMPLETED exactly at the configured count. The unrestricted claim fails
because the on-demand payment check can return a finished transaction to
MIXING, as the counterexample trace shows. -/
theorem C5_rounds_bounded_amended (cfg : Config) (amount : Rat)
    (oa sid ih uh ia : String) (d now : Int) (ops : List EngineOp)
    (h1 : 1 ≤ cfg.MIXING_ROUNDS)
    (h2 : pendingDetectRun cfg
        (create_mixing_transaction cfg amount oa sid ih uh ia d now) ops = true) :
    (∀ (cfg2 : Config) (op : EngineOp) (s : MixingTransaction × List LogEntry),
        s.1.mixing_rounds_completed ≤ (applyOp cfg2 op s).tx.mixing_rounds_completed)
    ∧ roundsInv cfg
        (runOps cfg (create_mixing_transaction cfg amount oa sid ih uh ia d now) ops).1 := by
  refine ⟨applyOp_rounds_mono, ?_⟩
  refine runOps_roundsInv cfg ops _ ?_ h2
  refine ⟨Nat.zero_le _, fun _ => h1, ?_⟩
  intro hst
  exact absurd hst (by simp [create_mixing_transaction])

/-- The well-behaved trace of the C5 witness: payment detected from
PENDING, then three rounds to completion. -/
def demoOps : List EngineOp :=
  [EngineOp.checkPayment 100 (Except.ok 1) (Except.ok ["t1"]),
   EngineOp.mixRound 200 (Except.ok ["B"]) 0 RoundFault.ok,
   EngineOp.mixRound 300 (Except.ok ["C"]) 0 RoundFault.ok,
   EngineOp.mixRound 400 (Except.ok ["D"]) 0 RoundFault.ok]

/-- C5 witness: the amended theorem applied at the default configuration
and a concrete PENDING-gated trace. -/
theorem C5_rounds_bounded_witness :
    roundsInv defaultConfig
      (runOps defaultConfig
        (create_mixing_transaction defaultConfig 1 "OUT" "s1" "ih" "uh" "IN" 10 0)
        demoOps).1 :=
  (C5_rounds_bounded_amended defaultConfig 1 "OUT" "s1" "ih" "uh" "IN" 10 0 demoOps
     (by decide) rfl).2
